import Mathlib

/-!
Verification of the contact-form API worker.

This file is a shallow embedding of the Cloudflare Worker in
`src/unnamed/part_000` (the current module-syntax worker; `src/src/index.ts`
is an earlier service-worker variant of the same code, with an identical
`validateInput` and request pipeline).  JavaScript values arriving from
`request.json()` are modelled by `JsonValue`; JavaScript truthiness, `typeof`,
property access, `String()` coercion, `String.prototype.trim` and the two
regular expressions used by the validator are each given an explicit model.

Modelling notes:
  - JSON numbers are modelled as integers.  The validator only ever coerces a
    number to its decimal string, and no claim in scope depends on fractional
    values.
  - Whitespace is modelled by the six ASCII whitespace characters matched by
    the `\s` class of JavaScript regular expressions; non-ASCII whitespace is
    outside the model.
  - Objects are modelled as key/value lists.  `JSON.parse` produces objects
    with unique keys, so first-match lookup is adequate.
  - Arrays and objects are given their own mutually inductive list types
    (`JsonElems`, `JsonFields`) rather than nesting `List`, so that every
    function on them (in particular the `String()` coercion) is structurally
    recursive and evaluates inside the kernel.
-/

namespace ContactFormApi

mutual

/-- A parsed JSON value, as produced by `request.json()`. -/
inductive JsonValue where
  | null
  | bool (b : Bool)
  | num (n : Int)
  | str (s : String)
  | arr (elems : JsonElems)
  | obj (fields : JsonFields)

/-- The elements of a JSON array. -/
inductive JsonElems where
  | nil
  | cons (head : JsonValue) (tail : JsonElems)

/-- The key/value fields of a JSON object. -/
inductive JsonFields where
  | nil
  | cons (key : String) (val : JsonValue) (tail : JsonFields)

end

/-- Build an array value from a list of elements. -/
def jarr (l : List JsonValue) : JsonValue :=
  .arr (l.foldr JsonElems.cons .nil)

/-- Build an object value from a list of key/value pairs. -/
def jobj (l : List (String × JsonValue)) : JsonValue :=
  .obj (l.foldr (fun p rest => JsonFields.cons p.1 p.2 rest) .nil)

/-- The number of elements of a JSON array. -/
def elemsLength : JsonElems → Nat
  | .nil => 0
  | .cons _ tail => 1 + elemsLength tail

/-- JavaScript truthiness of a JSON value: `null`, `false`, `0` and the empty
string are falsy; every array and object is truthy. -/
def jsTruthy : JsonValue → Bool
  | .null => false
  | .bool b => b
  | .num n => !(n == 0)
  | .str s => !(s == "")
  | .arr _ => true
  | .obj _ => true

/-- Whether `typeof v` is the string `"object"`: true for objects, arrays and
`null`. -/
def typeofObject : JsonValue → Bool
  | .obj _ => true
  | .arr _ => true
  | .null => true
  | _ => false

/-- First-match lookup in an object field list. -/
def lookupField : JsonFields → String → Option JsonValue
  | .nil, _ => none
  | .cons k v rest, key => if k == key then some v else lookupField rest key

/-- Property access `v.key`: `none` models the JavaScript value `undefined`. -/
def getField (v : JsonValue) (key : String) : Option JsonValue :=
  match v with
  | .obj fields => lookupField fields key
  | _ => none

/-- Truthiness of a possibly-`undefined` value. -/
def jsTruthyOpt : Option JsonValue → Bool
  | none => false
  | some w => jsTruthy w

/-- Whether `typeof v` is `"string"` for a possibly-`undefined` value. -/
def isStringVal : Option JsonValue → Bool
  | some (.str _) => true
  | _ => false

/-- The underlying string of a value.  Only read under an `isStringVal` guard,
mirroring the short-circuit evaluation in the source. -/
def asString : Option JsonValue → String
  | some (.str s) => s
  | _ => ""

/-- The ASCII whitespace characters of the JavaScript `\s` regular-expression
class (space, tab, line feed, carriage return, vertical tab, form feed). -/
def isJsSpace (c : Char) : Bool :=
  c == ' ' || c == '\t' || c == '\n' || c == '\r' ||
    c == Char.ofNat 11 || c == Char.ofNat 12

/-- Trimming on character lists: drop whitespace from both ends. -/
def jsTrimL (l : List Char) : List Char :=
  ((l.dropWhile isJsSpace).reverse.dropWhile isJsSpace).reverse

/-- Model of `String.prototype.trim` (restricted to ASCII whitespace). -/
def jsTrim (s : String) : String :=
  String.mk (jsTrimL s.data)

/-- The test `!data.f || typeof data.f !== 'string' || data.f.trim().length === 0`
used for each of the three required fields. -/
def fieldAbsent (v : Option JsonValue) : Bool :=
  !(jsTruthyOpt v) || !(isStringVal v) || (jsTrim (asString v)).length == 0

/-- Split a character list on a separator character; `n` separators give
`n + 1` parts, none containing the separator. -/
def splitOnChar (sep : Char) : List Char → List (List Char)
  | [] => [[]]
  | c :: rest =>
    match splitOnChar sep rest with
    | [] => [[]]
    | part :: parts =>
      if c == sep then [] :: part :: parts else (c :: part) :: parts

/-- Model of the test of `/^[^\s@]+@[^\s@]+\.[^\s@]+$/`: the string splits at a
unique `@` into a nonempty whitespace-free left part and a whitespace-free
right part containing a dot that is neither its first nor its last
character. -/
def emailRegexTest (s : String) : Bool :=
  match splitOnChar '@' s.data with
  | [a, b] =>
    !a.isEmpty && a.all (fun c => !(isJsSpace c)) &&
      b.all (fun c => !(isJsSpace c)) &&
      ((b.drop 1).dropLast.contains '.')
  | _ => false

mutual

/-- Model of the JavaScript `String()` coercion on parsed JSON values: `null`
renders as `"null"`, booleans and integers as their literals, arrays as their
comma-joined elements, objects as `"[object Object]"`. -/
def jsToString : JsonValue → String
  | .null => "null"
  | .bool b => cond b "true" "false"
  | .num n => toString n
  | .str s => s
  | .arr elems => joinElems elems
  | .obj _ => "[object Object]"
termination_by structural v => v

/-- Comma-join of array elements, as `Array.prototype.join` does; a `null`
element renders as the empty string. -/
def joinElems : JsonElems → String
  | .nil => ""
  | .cons .null .nil => ""
  | .cons v .nil => jsToString v
  | .cons .null tail => "," ++ joinElems tail
  | .cons v tail => jsToString v ++ "," ++ joinElems tail
termination_by structural l => l

end

/-- The test of `/^\d+$/`: a nonempty string of decimal digits. -/
def digitsOnly (s : String) : Bool :=
  !s.data.isEmpty && s.data.all Char.isDigit

/-- Failure of the inner mobile test on the coerced, trimmed string. -/
def mobileStrBad (ms : String) : Bool :=
  !(digitsOnly ms) || decide (ms.length < 7) || decide (ms.length > 15)

/-- Strict equality `v === ''`: only a string compares equal to a string. -/
def strictEqEmptyStr : JsonValue → Bool
  | .str s => s == ""
  | _ => false

/-- The condition under which the mobile rule rejects: the field is provided
(not `undefined`, not `null`, not `=== ''`) and its `String()` coercion,
trimmed, is not a digit string of length 7 to 15. -/
def mobileRuleFails (v : Option JsonValue) : Bool :=
  match v with
  | none => false
  | some .null => false
  | some w =>
    if strictEqEmptyStr w then false
    else mobileStrBad (jsTrim (jsToString w))

/-- The test `data.subject && data.subject.length > 200`: truthy values with a
`length` property (strings and arrays) exceeding 200.  A truthy value with no
`length` property compares `undefined > 200`, which is false. -/
def subjectTooLong (v : Option JsonValue) : Bool :=
  match v with
  | none => false
  | some w =>
    jsTruthy w &&
      (match w with
       | .str s => decide (s.length > 200)
       | .arr elems => decide (elemsLength elems > 200)
       | _ => false)

/-- The result record of `validateInput`. -/
structure ValidationResult where
  isValid : Bool
  message : Option String
deriving DecidableEq, Repr

/-- Model of `validateInput` from the source: a chain of early returns, one per
rule, in source order. -/
def validateInput (data : JsonValue) : ValidationResult :=
  if !(jsTruthy data) || !(typeofObject data) then
    ⟨false, some "Invalid request body"⟩
  else if fieldAbsent (getField data "name") then
    ⟨false, some "Name is required"⟩
  else if fieldAbsent (getField data "email") then
    ⟨false, some "Email is required"⟩
  else if fieldAbsent (getField data "message") then
    ⟨false, some "Message is required"⟩
  else if !(emailRegexTest (jsTrim (asString (getField data "email")))) then
    ⟨false, some "Please provide a valid email address"⟩
  else if mobileRuleFails (getField data "mobile") then
    ⟨false, some "Mobile number must be valid"⟩
  else if decide ((jsTrim (asString (getField data "name"))).length > 100) then
    ⟨false, some "Name must be less than 100 characters"⟩
  else if subjectTooLong (getField data "subject") then
    ⟨false, some "Subject must be less than 200 characters"⟩
  else if decide ((jsTrim (asString (getField data "message"))).length > 1000) then
    ⟨false, some "Message must be less than 1000 characters"⟩
  else
    ⟨true, none⟩

/-- The validation rules in the order the specification states them:
body-is-object, name-present, email-present, message-present, email-format,
mobile-format, name-length, subject-length, message-length, each paired with
its specific message. -/
def rules : List ((JsonValue → Bool) × String) :=
  [ (fun d => !(jsTruthy d) || !(typeofObject d), "Invalid request body"),
    (fun d => fieldAbsent (getField d "name"), "Name is required"),
    (fun d => fieldAbsent (getField d "email"), "Email is required"),
    (fun d => fieldAbsent (getField d "message"), "Message is required"),
    (fun d => !(emailRegexTest (jsTrim (asString (getField d "email")))),
      "Please provide a valid email address"),
    (fun d => mobileRuleFails (getField d "mobile"), "Mobile number must be valid"),
    (fun d => decide ((jsTrim (asString (getField d "name"))).length > 100),
      "Name must be less than 100 characters"),
    (fun d => subjectTooLong (getField d "subject"),
      "Subject must be less than 200 characters"),
    (fun d => decide ((jsTrim (asString (getField d "message"))).length > 1000),
      "Message must be less than 1000 characters") ]

/-- Scan an ordered rule list and report the first failing rule, as the
specification describes the validator. -/
def firstFailing : List ((JsonValue → Bool) × String) → JsonValue → ValidationResult
  | [], _ => ⟨true, none⟩
  | (p, m) :: rest, d => if p d then ⟨false, some m⟩ else firstFailing rest d

/-- The validator as the specification words it: the first failing rule of the
ordered rule list wins. -/
def specValidate (d : JsonValue) : ValidationResult :=
  firstFailing rules d

/-! ## The HTTP layer -/

/-- The worker environment bindings.  A binding the platform leaves undefined
is modelled as the empty string; the source only ever tests the bindings for
JavaScript falsiness, which identifies the two. -/
structure Env where
  MAILTRAP_API_TOKEN : String
  FROM_EMAIL : String
  TO_EMAIL : String
  MAILTRAP_API_URL : String

/-- Outcome of the outbound `fetch` to the email API: either a response with a
status code, or a thrown error (network failure, invalid URL, and also the
thrown type errors of the email-building code, all of which land in the same
`catch`). -/
inductive FetchOutcome where
  | resp (status : Nat)
  | throwErr
deriving DecidableEq

/-- Model of `Response.ok`: the status is in the 2xx range. -/
def respOk (status : Nat) : Bool :=
  decide (200 ≤ status) && decide (status < 300)

/-- The fixed CORS header set returned by `getCORSHeaders`. -/
def getCORSHeaders : List (String × String) :=
  [("Access-Control-Allow-Origin", "*"),
   ("Access-Control-Allow-Methods", "POST, OPTIONS"),
   ("Access-Control-Allow-Headers", "Content-Type"),
   ("Access-Control-Max-Age", "86400")]

/-- One lowercase hexadecimal digit. -/
def hexDigit (d : Nat) : Char :=
  if d < 10 then Char.ofNat (48 + d) else Char.ofNat (87 + d)

/-- Escaping of one character by `JSON.stringify` inside a string literal. -/
def jsonEscapeChar (c : Char) : String :=
  if c == '"' then "\\\""
  else if c == '\\' then "\\\\"
  else if c == '\n' then "\\n"
  else if c == '\r' then "\\r"
  else if c == '\t' then "\\t"
  else if c == Char.ofNat 8 then "\\b"
  else if c == Char.ofNat 12 then "\\f"
  else if c.toNat < 32 then
    "\\u00" ++ String.mk [hexDigit (c.toNat / 16), hexDigit (c.toNat % 16)]
  else String.singleton c

/-- A string rendered as a `JSON.stringify` string literal. -/
def jsonQuote (s : String) : String :=
  "\"" ++ String.join (s.data.map jsonEscapeChar) ++ "\""

/-- The serialized body `JSON.stringify(\x7bstatus, message\x7d)` common to every
JSON response of the worker. -/
def envelopeBody (status message : String) : String :=
  "\x7b\"status\":" ++ jsonQuote status ++ ",\"message\":" ++ jsonQuote message ++ "\x7d"

/-- An HTTP response: status code, headers in insertion order, and an optional
body (`none` models the `null` body of the preflight response). -/
structure Response where
  status : Nat
  headers : List (String × String)
  body : Option String
deriving DecidableEq, Repr

/-- Model of `createErrorResponse`. -/
def createErrorResponse (message : String) (status : Nat) : Response :=
  ⟨status,
   ("Content-Type", "application/json") :: getCORSHeaders,
   some (envelopeBody "error" message)⟩

/-- Model of `handleCORS`: a 200 with the CORS headers and a null body. -/
def handleCORS : Response :=
  ⟨200, getCORSHeaders, none⟩

/-- The success response of a completed submission. -/
def successResponse : Response :=
  ⟨200,
   ("Content-Type", "application/json") :: getCORSHeaders,
   some (envelopeBody "success" "Your inquiry has been sent.")⟩

/-- The JavaScript `a || b` fallback on an optional string: `undefined` and
the empty string are falsy. -/
def orDefault (m : Option String) (dflt : String) : String :=
  match m with
  | none => dflt
  | some s => if s == "" then dflt else s

/-- Whether applying `escapeHtml` to this value throws: `text.replace` is only
a function on strings, so any other argument raises a `TypeError`. -/
def escapeThrows : Option JsonValue → Bool
  | some (.str _) => false
  | _ => true

/-- Whether building the email content throws before the outbound call:
`escapeHtml` is applied to `name`, `email`, `message` unconditionally and to
`mobile` and `subject` when truthy. -/
def buildThrows (body : JsonValue) : Bool :=
  escapeThrows (getField body "name") ||
    escapeThrows (getField body "email") ||
    (jsTruthyOpt (getField body "mobile") && escapeThrows (getField body "mobile")) ||
    (jsTruthyOpt (getField body "subject") && escapeThrows (getField body "subject")) ||
    escapeThrows (getField body "message")

/-- Model of `sendEmail`, reduced to its success flag: it fails when a required
environment binding is falsy, when building the email content throws (the
`catch` inside `sendEmail` turns the error into failure), or when the outbound
call throws or answers outside the 2xx range. -/
def sendEmail (body : JsonValue) (env : Env) (f : FetchOutcome) : Bool :=
  if env.MAILTRAP_API_TOKEN == "" || env.FROM_EMAIL == "" || env.TO_EMAIL == "" then
    false
  else if buildThrows body then
    false
  else
    match f with
    | .resp s => respOk s
    | .throwErr => false

/-- An incoming request: method, URL path, and the JSON parse of its body
(`none` models a body on which `request.json()` throws). -/
structure RequestModel where
  method : String
  path : String
  body : Option JsonValue

/-- Model of `handleRequest`: preflight, method and path routing, body
parsing, validation, send, and the top-level `catch` that turns a JSON parse
error into the generic 500. -/
def handleRequest (req : RequestModel) (env : Env) (f : FetchOutcome) : Response :=
  if req.method == "OPTIONS" then
    handleCORS
  else if !(req.method == "POST") then
    createErrorResponse "Method not allowed" 405
  else if !(req.path == "/contact") then
    createErrorResponse "Endpoint not found" 404
  else
    match req.body with
    | none => createErrorResponse "Unable to send your inquiry. Please try again later." 500
    | some body =>
      let validation := validateInput body
      if !validation.isValid then
        createErrorResponse (orDefault validation.message "Validation failed") 400
      else if !(sendEmail body env f) then
        createErrorResponse "Unable to send your inquiry. Please try again later." 500
      else
        successResponse

/-! ## The HTML email rendering -/

/-- The apostrophe character. -/
def aposChar : Char := Char.ofNat 39

/-- The apostrophe as a string. -/
def apos : String := String.singleton aposChar

/-- The image of one character under `escapeHtml`. -/
def escapeHtmlChar (c : Char) : String :=
  if c == '&' then "&amp;"
  else if c == '<' then "&lt;"
  else if c == '>' then "&gt;"
  else if c == '"' then "&quot;"
  else if c == aposChar then "&#039;"
  else String.singleton c

/-- Per-character substitution on a character list. -/
def escapeHtmlL : List Char → List Char
  | [] => []
  | c :: rest => (escapeHtmlChar c).data ++ escapeHtmlL rest

/-- Model of `escapeHtml` from the source.  The source chains five global
single-character `String.replace` calls, ampersand first.  Because every
pattern is a single character, the ampersand pass comes first, and no
replacement string contains a later pattern character, the chain equals one
left-to-right per-character substitution, which is the form used here. -/
def escapeHtml (text : String) : String :=
  String.mk (escapeHtmlL text.data)

/-- The `.replace(/\n/g, '<br>')` pass applied to the escaped message. -/
def replaceNewlines (s : String) : String :=
  String.join (s.data.map fun c => if c == '\n' then "<br>" else String.singleton c)

/-- The validated contact submission as typed by the `ContactData` interface:
three required string fields and two optional string fields. -/
structure ContactData where
  name : String
  email : String
  mobile : Option String
  subject : Option String
  message : String

/-- The escaped name interpolated into the HTML template. -/
def safeName (d : ContactData) : String :=
  escapeHtml d.name

/-- The escaped email interpolated into the HTML template. -/
def safeEmail (d : ContactData) : String :=
  escapeHtml d.email

/-- The escaped mobile, or the empty string when the field is absent or empty
(the source tests `contactData.mobile` for truthiness). -/
def safeMobile (d : ContactData) : String :=
  match d.mobile with
  | none => ""
  | some m => if m == "" then "" else escapeHtml m

/-- The escaped subject, or the fixed fallback when the field is absent or
empty. -/
def safeSubject (d : ContactData) : String :=
  match d.subject with
  | none => "No subject provided"
  | some s => if s == "" then "No subject provided" else escapeHtml s

/-- The escaped message with newlines turned into `<br>` tags. -/
def safeMessage (d : ContactData) : String :=
  replaceNewlines (escapeHtml d.message)

/-- Template text before the interpolated name. -/
def htmlSeg0 : String :=
  ("\n<!DOCTYPE html>\n<html lang=\"en\">\n<head>\n  <meta charset=\"UTF-8\">\n  <meta name=\"viewport\" content=\"width=device-width, initial-scale=1.0\">\n  <title>New Contact Form Submission</title>\n</head>\n<body style=\"margin: 0; padding: 0; font-family: -apple-system, BlinkMacSystemFont, " ++ apos ++ "Segoe UI" ++ apos ++ ", Roboto, " ++ apos ++ "Helvetica Neue" ++ apos ++ ", Arial, sans-serif; background-color: #f5f5f5;\">\n  <table role=\"presentation\" cellspacing=\"0\" cellpadding=\"0\" border=\"0\" width=\"100%\" style=\"background-color: #f5f5f5;\">\n    <tr>\n      <td style=\"padding: 40px 20px;\">\n        <table role=\"presentation\" cellspacing=\"0\" cellpadding=\"0\" border=\"0\" width=\"600\" style=\"max-width: 600px; margin: 0 auto; background-color: #ffffff; border-radius: 8px; box-shadow: 0 2px 4px rgba(0, 0, 0, 0.1);\">\n          <!-- Header -->\n          <tr>\n            <td style=\"padding: 32px 40px; background-color: #1a1a1a; border-radius: 8px 8px 0 0;\">\n              <h1 style=\"margin: 0; font-size: 24px; font-weight: 600; color: #ffffff; letter-spacing: -0.5px;\">New Contact Form Submission</h1>\n            </td>\n          </tr>\n\n          <!-- Content -->\n          <tr>\n            <td style=\"padding: 40px;\">\n              <!-- Contact Information Section -->\n              <table role=\"presentation\" cellspacing=\"0\" cellpadding=\"0\" border=\"0\" width=\"100%\">\n                <tr>\n                  <td style=\"padding-bottom: 24px;\">\n                    <table role=\"presentation\" cellspacing=\"0\" cellpadding=\"0\" border=\"0\" width=\"100%\">\n                      <tr>\n                        <td style=\"width: 120px; padding-bottom: 12px; vertical-align: top;\">\n                          <span style=\"font-size: 13px; font-weight: 600; color: #666666; text-transform: uppercase; letter-spacing: 0.5px;\">Name</span>\n                        </td>\n                        <td style=\"padding-bottom: 12px;\">\n                          <span style=\"font-size: 15px; color: #1a1a1a; font-weight: 500;\">")

/-- Template text between the name and the mailto href. -/
def htmlSeg1 : String :=
  "</span>\n                        </td>\n                      </tr>\n                      <tr>\n                        <td style=\"width: 120px; padding-bottom: 12px; vertical-align: top;\">\n                          <span style=\"font-size: 13px; font-weight: 600; color: #666666; text-transform: uppercase; letter-spacing: 0.5px;\">Email</span>\n                        </td>\n                        <td style=\"padding-bottom: 12px;\">\n                          <a href=\"mailto:"

/-- Template text between the two email interpolations. -/
def htmlSeg2 : String :=
  "\" style=\"font-size: 15px; color: #2563eb; text-decoration: none; font-weight: 500;\">"

/-- Template text between the email row and the mobile row. -/
def htmlSeg3 : String :=
  "</a>\n                        </td>\n                      </tr>\n                      "

/-- Template text between the mobile row and the subject. -/
def htmlSeg4 : String :=
  "\n                      <tr>\n                        <td style=\"width: 120px; padding-bottom: 12px; vertical-align: top;\">\n                          <span style=\"font-size: 13px; font-weight: 600; color: #666666; text-transform: uppercase; letter-spacing: 0.5px;\">Subject</span>\n                        </td>\n                        <td style=\"padding-bottom: 12px;\">\n                          <span style=\"font-size: 15px; color: #1a1a1a; font-weight: 500;\">"

/-- Template text between the subject and the message. -/
def htmlSeg5 : String :=
  "</span>\n                        </td>\n                      </tr>\n                    </table>\n                  </td>\n                </tr>\n              </table>\n\n              <!-- Divider -->\n              <table role=\"presentation\" cellspacing=\"0\" cellpadding=\"0\" border=\"0\" width=\"100%\">\n                <tr>\n                  <td style=\"padding: 24px 0;\">\n                    <div style=\"height: 1px; background-color: #e5e5e5;\"></div>\n                  </td>\n                </tr>\n              </table>\n\n              <!-- Message Section -->\n              <table role=\"presentation\" cellspacing=\"0\" cellpadding=\"0\" border=\"0\" width=\"100%\">\n                <tr>\n                  <td style=\"padding-bottom: 12px;\">\n                    <span style=\"font-size: 13px; font-weight: 600; color: #666666; text-transform: uppercase; letter-spacing: 0.5px;\">Message</span>\n                  </td>\n                </tr>\n                <tr>\n                  <td style=\"padding: 20px; background-color: #f9fafb; border-radius: 6px; border-left: 3px solid #2563eb;\">\n                    <div style=\"font-size: 15px; color: #1a1a1a; line-height: 1.6; white-space: pre-wrap;\">"

/-- Template text after the message. -/
def htmlSeg6 : String :=
  "</div>\n                  </td>\n                </tr>\n              </table>\n            </td>\n          </tr>\n\n          <!-- Footer -->\n          <tr>\n            <td style=\"padding: 24px 40px; background-color: #f9fafb; border-top: 1px solid #e5e5e5; border-radius: 0 0 8px 8px;\">\n              <p style=\"margin: 0; font-size: 12px; color: #999999; text-align: center;\">\n                This message was sent via the contact form on\n                <a href=\"https://desallyltd.com\" style=\"color: #2563eb; text-decoration: none;\">desallyltd.com</a>\n              </p>\n            </td>\n          </tr>\n        </table>\n      </td>\n    </tr>\n  </table>\n</body>\n</html>\n    "

/-- Mobile-row text before the tel href. -/
def mobileSeg0 : String :=
  "\n                      <tr>\n                        <td style=\"width: 120px; padding-bottom: 12px; vertical-align: top;\">\n                          <span style=\"font-size: 13px; font-weight: 600; color: #666666; text-transform: uppercase; letter-spacing: 0.5px;\">Mobile</span>\n                        </td>\n                        <td style=\"padding-bottom: 12px;\">\n                          <a href=\"tel:"

/-- Mobile-row text between the two mobile interpolations. -/
def mobileSeg1 : String :=
  "\" style=\"font-size: 15px; color: #2563eb; text-decoration: none; font-weight: 500;\">"

/-- Mobile-row text after the mobile. -/
def mobileSeg2 : String :=
  "</a>\n                        </td>\n                      </tr>\n                      "

/-- The conditional mobile table row: present exactly when the escaped
mobile is nonempty (the source tests `safeMobile` for truthiness). -/
def mobileRow (d : ContactData) : String :=
  if safeMobile d == "" then ""
  else mobileSeg0 ++ safeMobile d ++ mobileSeg1 ++ safeMobile d ++ mobileSeg2

/-- Model of the `htmlContent` template literal of `sendEmail`: the fixed
template text with the escaped fields interpolated. -/
def htmlContent (d : ContactData) : String :=
  htmlSeg0 ++ safeName d ++ htmlSeg1 ++ safeEmail d ++ htmlSeg2 ++ safeEmail d ++
    htmlSeg3 ++ mobileRow d ++ htmlSeg4 ++ safeSubject d ++ htmlSeg5 ++
    safeMessage d ++ htmlSeg6

/-! ## Concrete sample data used by the witnesses -/

/-- An environment with all four bindings present. -/
def sampleEnv : Env :=
  ⟨"token", "from@example.com", "to@example.com", "https://send.api.mailtrap.io/api/send"⟩

/-- A minimal valid submission body. -/
def validBody : JsonValue :=
  jobj [("name", .str "Jo"), ("email", .str "jo@x.com"), ("message", .str "Hi")]

/-- A valid body whose name, subject and message sit exactly at the length
limits (100, 200 and 1000 characters). -/
def atLimitBody : JsonValue :=
  jobj [("name", .str (String.mk (List.replicate 100 'a'))),
        ("email", .str "jo@x.com"),
        ("subject", .str (String.mk (List.replicate 200 's'))),
        ("message", .str (String.mk (List.replicate 1000 'm')))]

/-- A body whose name is one character over the limit. -/
def overLimitNameBody : JsonValue :=
  jobj [("name", .str (String.mk (List.replicate 101 'a'))),
        ("email", .str "jo@x.com"),
        ("message", .str "Hi")]

/-- A body with a syntactically bad email. -/
def badEmailBody : JsonValue :=
  jobj [("name", .str "Jo"), ("email", .str "not-an-email"), ("message", .str "Hi")]

/-- A body whose mobile is a digit string padded with spaces: not digit-only,
yet accepted because the validator trims before testing. -/
def paddedMobileBody : JsonValue :=
  jobj [("name", .str "Jo"), ("email", .str "jo@x.com"), ("message", .str "Hi"),
        ("mobile", .str " 1234567 ")]

/-- A body with a non-digit mobile string. -/
def badMobileBody : JsonValue :=
  jobj [("name", .str "Jo"), ("email", .str "jo@x.com"), ("message", .str "Hi"),
        ("mobile", .str "12ab567")]

/-- A body with a seven-digit mobile string. -/
def goodMobileBody : JsonValue :=
  jobj [("name", .str "Jo"), ("email", .str "jo@x.com"), ("message", .str "Hi"),
        ("mobile", .str "1234567")]

/-- A body whose mobile is the JSON number 1234567 rather than a string. -/
def numericMobileBody : JsonValue :=
  jobj [("name", .str "Jo"), ("email", .str "jo@x.com"), ("message", .str "Hi"),
        ("mobile", .num 1234567)]

/-- A POST to `/contact` whose body fails to parse as JSON. -/
def unparseableReq : RequestModel :=
  ⟨"POST", "/contact", none⟩

/-! ## Theorems -/

/-- A string has length zero exactly when it is empty. -/
theorem string_length_zero_iff (s : String) : s.length = 0 ↔ s = "" := by
  rw [String.ext_iff]
  rw [show ("" : String).data = [] from rfl]
  rw [show s.length = s.data.length from rfl]
  exact List.length_eq_zero

/-- C1: the validator applies its rules in the fixed specification order and
answers with the first failing rule's specific message; and a required field
(name, email, message) passes its presence rule exactly when it is a string
whose trimmed value is nonempty, so a missing, empty, whitespace-only or
non-string field fails with the corresponding message. -/
theorem validateInput_first_failing_rule :
    (∀ d : JsonValue, validateInput d = specValidate d) ∧
    (∀ v : Option JsonValue,
      fieldAbsent v = false ↔ ∃ s, v = some (JsonValue.str s) ∧ jsTrim s ≠ "") := by
  constructor
  · intro d
    rfl
  · intro v
    constructor
    · intro h
      match v with
      | none => simp [fieldAbsent, jsTruthyOpt] at h
      | some (.str s) =>
        refine ⟨s, rfl, ?_⟩
        simp only [fieldAbsent, Bool.or_eq_false_iff] at h
        intro hs
        have : (jsTrim s).length == 0 := by
          rw [hs]
          rfl
        simp [asString, this] at h
      | some .null => simp [fieldAbsent, jsTruthyOpt, jsTruthy] at h
      | some (.bool b) => simp [fieldAbsent, isStringVal] at h
      | some (.num n) => simp [fieldAbsent, isStringVal] at h
      | some (.arr elems) => simp [fieldAbsent, isStringVal] at h
      | some (.obj fields) => simp [fieldAbsent, isStringVal] at h
    · rintro ⟨s, rfl, hs⟩
      have hlen : ((jsTrim s).length == 0) = false := by
        simp only [beq_eq_false_iff_ne, ne_eq, string_length_zero_iff]
        exact hs
      have hne : (s == "") = false := by
        simp only [beq_eq_false_iff_ne, ne_eq]
        intro h
        exact hs (by simp [h, jsTrim, jsTrimL])
      simp [fieldAbsent, jsTruthyOpt, jsTruthy, isStringVal, asString, hne, hlen]

/-- A value with a present required field is a truthy object, so the
body-is-object rule passes. -/
theorem object_of_field_present (d : JsonValue) (k : String)
    (h : fieldAbsent (getField d k) = false) :
    (!(jsTruthy d) || !(typeofObject d)) = false := by
  match d with
  | .obj fields => simp [jsTruthy, typeofObject]
  | .null => simp [getField, fieldAbsent, jsTruthyOpt] at h
  | .bool b => simp [getField, fieldAbsent, jsTruthyOpt] at h
  | .num n => simp [getField, fieldAbsent, jsTruthyOpt] at h
  | .str s => simp [getField, fieldAbsent, jsTruthyOpt] at h
  | .arr elems => simp [getField, fieldAbsent, jsTruthyOpt] at h

/-- C6: when name, email and message pass their presence rules but the trimmed
email fails the format regular expression, the validator answers exactly with
the email-format message. -/
theorem email_format_rejected (d : JsonValue)
    (hname : fieldAbsent (getField d "name") = false)
    (hemail : fieldAbsent (getField d "email") = false)
    (hmsg : fieldAbsent (getField d "message") = false)
    (hfmt : emailRegexTest (jsTrim (asString (getField d "email"))) = false) :
    validateInput d = ⟨false, some "Please provide a valid email address"⟩ := by
  have hbody := object_of_field_present d "name" hname
  simp [validateInput, hbody, hname, hemail, hmsg, hfmt]

/-- Witness for C6 at a concrete body with an invalid email. -/
theorem email_format_rejected_witness :
    validateInput badEmailBody = ⟨false, some "Please provide a valid email address"⟩ :=
  email_format_rejected badEmailBody (by decide) (by decide) (by decide) (by decide)

/-- C5: past the earlier rules, an over-long name, subject or message each
independently draws its specific message, and the three limits are inclusive:
at 100, 200 and 1000 characters the submission is accepted. -/
theorem length_limits (d : JsonValue)
    (hname : fieldAbsent (getField d "name") = false)
    (hemail : fieldAbsent (getField d "email") = false)
    (hmsg : fieldAbsent (getField d "message") = false)
    (hfmt : emailRegexTest (jsTrim (asString (getField d "email"))) = true)
    (hmob : mobileRuleFails (getField d "mobile") = false) :
    ((jsTrim (asString (getField d "name"))).length > 100 →
      validateInput d = ⟨false, some "Name must be less than 100 characters"⟩) ∧
    ((jsTrim (asString (getField d "name"))).length ≤ 100 →
      subjectTooLong (getField d "subject") = true →
      validateInput d = ⟨false, some "Subject must be less than 200 characters"⟩) ∧
    ((jsTrim (asString (getField d "name"))).length ≤ 100 →
      subjectTooLong (getField d "subject") = false →
      (jsTrim (asString (getField d "message"))).length > 1000 →
      validateInput d = ⟨false, some "Message must be less than 1000 characters"⟩) ∧
    ((jsTrim (asString (getField d "name"))).length ≤ 100 →
      subjectTooLong (getField d "subject") = false →
      (jsTrim (asString (getField d "message"))).length ≤ 1000 →
      validateInput d = ⟨true, none⟩) := by
  have hbody := object_of_field_present d "name" hname
  refine ⟨?_, ?_, ?_, ?_⟩
  · intro hn
    simp [validateInput, hbody, hname, hemail, hmsg, hfmt, hmob, hn]
  · intro hn hs
    have hn' : ¬ ((jsTrim (asString (getField d "name"))).length > 100) := by omega
    simp [validateInput, hbody, hname, hemail, hmsg, hfmt, hmob, hn', hs]
  · intro hn hs hm
    have hn' : ¬ ((jsTrim (asString (getField d "name"))).length > 100) := by omega
    simp [validateInput, hbody, hname, hemail, hmsg, hfmt, hmob, hn', hs, hm]
  · intro hn hs hm
    have hn' : ¬ ((jsTrim (asString (getField d "name"))).length > 100) := by omega
    have hm' : ¬ ((jsTrim (asString (getField d "message"))).length > 1000) := by omega
    simp [validateInput, hbody, hname, hemail, hmsg, hfmt, hmob, hn', hs, hm']

set_option maxRecDepth 100000 in
/-- Witness for C5: the at-limit body is accepted and a 101-character name is
rejected with the name-length message. -/
theorem length_limits_witness :
    validateInput atLimitBody = ⟨true, none⟩ ∧
    validateInput overLimitNameBody =
      ⟨false, some "Name must be less than 100 characters"⟩ :=
  ⟨(length_limits atLimitBody (by decide) (by decide) (by decide) (by decide)
      (by decide)).2.2.2 (by decide) (by decide) (by decide),
   (length_limits overLimitNameBody (by decide) (by decide) (by decide) (by decide)
      (by decide)).1 (by decide)⟩

/-- A decimal digit is not a whitespace character. -/
theorem digit_not_space {c : Char} (h : c.isDigit = true) : isJsSpace c = false := by
  cases hc : isJsSpace c
  · rfl
  · exfalso
    simp only [isJsSpace, Bool.or_eq_true, beq_iff_eq] at hc
    rcases hc with ((((h1 | h1) | h1) | h1) | h1) | h1 <;> subst h1 <;>
      exact absurd h (by decide)

/-- Dropping a prefix of elements that satisfy a predicate no element
satisfies changes nothing. -/
theorem dropWhile_eq_self_of_all {p : Char → Bool} {l : List Char}
    (h : ∀ c ∈ l, p c = false) : l.dropWhile p = l := by
  cases l with
  | nil => rfl
  | cons c rest => simp [List.dropWhile_cons, h c (by simp)]

/-- Trimming a list without whitespace changes nothing. -/
theorem jsTrimL_eq_self {l : List Char} (h : ∀ c ∈ l, isJsSpace c = false) :
    jsTrimL l = l := by
  unfold jsTrimL
  rw [dropWhile_eq_self_of_all h,
      dropWhile_eq_self_of_all (fun c hc => h c (List.mem_reverse.mp hc)),
      List.reverse_reverse]

/-- Trimming a digit-only string changes nothing. -/
theorem jsTrim_digits {s : String} (h : s.data.all Char.isDigit = true) :
    jsTrim s = s := by
  have h' : ∀ c ∈ s.data, isJsSpace c = false :=
    fun c hc => digit_not_space (List.all_eq_true.mp h c hc)
  unfold jsTrim
  rw [jsTrimL_eq_self h']

/-- The inner mobile test accepts every digit string of length 7 to 15. -/
theorem mobileStrBad_eq_false {ms : String}
    (hd : ms.data.all Char.isDigit = true) (h7 : 7 ≤ ms.length) (h15 : ms.length ≤ 15) :
    mobileStrBad ms = false := by
  have hne : ms.data.isEmpty = false := by
    cases hm : ms.data with
    | nil =>
      exfalso
      have h0 : ms.length = 0 := by
        rw [show ms.length = ms.data.length from rfl, hm]
        rfl
      omega
    | cons a t => rfl
  simp [mobileStrBad, digitsOnly, hd, hne]
  omega

/-- On a provided mobile value (neither `null` nor `=== ''`), the mobile rule
reduces to the inner test on the coerced, trimmed string. -/
theorem mobileRuleFails_some (v : JsonValue) (hnull : v ≠ .null)
    (hempty : v ≠ .str "") :
    mobileRuleFails (some v) = mobileStrBad (jsTrim (jsToString v)) := by
  match v with
  | .null => exact absurd rfl hnull
  | .bool b => rfl
  | .num n => rfl
  | .arr e => rfl
  | .obj f => rfl
  | .str s =>
    have hs : (s == "") = false := by
      cases h : s == ""
      · rfl
      · exact absurd (by rw [show s = "" from by simpa using h]) hempty
    simp [mobileRuleFails, strictEqEmptyStr, hs]

/-- C7 counterexample: a mobile value that is not a digit-only string (it has
leading and trailing spaces) is accepted, not rejected with the mobile
message, because the validator trims the coerced value before testing it. -/
theorem mobile_padded_counterexample :
    (" 1234567 ").data.all Char.isDigit = false ∧
    validateInput paddedMobileBody = ⟨true, none⟩ ∧
    validateInput paddedMobileBody ≠ ⟨false, some "Mobile number must be valid"⟩ :=
  ⟨by decide, by decide, by decide⟩

/-- C7 as amended: past the required-field and email-format rules, a provided
mobile (not absent, `null` or `=== ''`) is rejected with the mobile message
exactly when its `String()` coercion, after trimming, is not a digit string
of length 7 to 15; every digit string of length 7 to 15 passes the check, and
an absent, `null` or empty-string mobile skips it entirely. -/
theorem mobile_rule (d : JsonValue)
    (hname : fieldAbsent (getField d "name") = false)
    (hemail : fieldAbsent (getField d "email") = false)
    (hmsg : fieldAbsent (getField d "message") = false)
    (hfmt : emailRegexTest (jsTrim (asString (getField d "email"))) = true) :
    (∀ v, getField d "mobile" = some v → v ≠ JsonValue.null → v ≠ JsonValue.str "" →
      mobileStrBad (jsTrim (jsToString v)) = true →
      validateInput d = ⟨false, some "Mobile number must be valid"⟩) ∧
    (∀ s, getField d "mobile" = some (JsonValue.str s) →
      s.data.all Char.isDigit = true → 7 ≤ s.length → s.length ≤ 15 →
      mobileRuleFails (getField d "mobile") = false) ∧
    (mobileRuleFails none = false ∧ mobileRuleFails (some JsonValue.null) = false ∧
      mobileRuleFails (some (JsonValue.str "")) = false) := by
  have hbody := object_of_field_present d "name" hname
  refine ⟨?_, ?_, rfl, rfl, rfl⟩
  · intro v hv hnull hempty hbad
    have hm : mobileRuleFails (getField d "mobile") = true := by
      rw [hv, mobileRuleFails_some v hnull hempty]
      exact hbad
    simp [validateInput, hbody, hname, hemail, hmsg, hfmt, hm]
  · intro s hv hd h7 h15
    have hs : s ≠ "" := by
      intro h
      rw [h] at h7
      exact absurd h7 (by decide)
    rw [hv, mobileRuleFails_some (JsonValue.str s) (by simp) (by simp [hs])]
    have : jsToString (JsonValue.str s) = s := rfl
    rw [this, jsTrim_digits hd]
    exact mobileStrBad_eq_false hd h7 h15

/-- Witness for C7: a non-digit mobile string draws the mobile message, and a
seven-digit mobile string passes the check. -/
theorem mobile_rule_witness :
    validateInput badMobileBody = ⟨false, some "Mobile number must be valid"⟩ ∧
    mobileRuleFails (getField goodMobileBody "mobile") = false :=
  ⟨(mobile_rule badMobileBody (by decide) (by decide) (by decide) (by decide)).1
      (JsonValue.str "12ab567") rfl (by simp) (by simp) (by decide),
   (mobile_rule goodMobileBody (by decide) (by decide) (by decide) (by decide)).2.1
      "1234567" rfl (by decide) (by decide) (by decide)⟩

/-- C10: a mobile that is a JSON number rather than a string is coerced with
the `String()` conversion and trimmed before the digit test, so a number whose
decimal rendering has 7 to 15 digits passes the mobile check even though the
field is not a string. -/
theorem mobile_non_string_passes (d : JsonValue) (n : Int)
    (hname : fieldAbsent (getField d "name") = false)
    (hemail : fieldAbsent (getField d "email") = false)
    (hmsg : fieldAbsent (getField d "message") = false)
    (hfmt : emailRegexTest (jsTrim (asString (getField d "email"))) = true)
    (hv : getField d "mobile" = some (JsonValue.num n))
    (hd : (jsTrim (jsToString (JsonValue.num n))).data.all Char.isDigit = true)
    (h7 : 7 ≤ (jsTrim (jsToString (JsonValue.num n))).length)
    (h15 : (jsTrim (jsToString (JsonValue.num n))).length ≤ 15) :
    isStringVal (getField d "mobile") = false ∧
    mobileRuleFails (getField d "mobile") = false ∧
    validateInput d ≠ ⟨false, some "Mobile number must be valid"⟩ := by
  have hbody := object_of_field_present d "name" hname
  have hm : mobileRuleFails (getField d "mobile") = false := by
    rw [hv, mobileRuleFails_some (JsonValue.num n) (by simp) (by simp)]
    exact mobileStrBad_eq_false hd h7 h15
  refine ⟨by rw [hv]; rfl, hm, ?_⟩
  simp [validateInput, hbody, hname, hemail, hmsg, hfmt, hm]
  split_ifs <;> simp

/-- Witness for C10: the body whose mobile is the JSON number 1234567 passes
the whole validation. -/
theorem mobile_non_string_passes_witness :
    validateInput numericMobileBody ≠ ⟨false, some "Mobile number must be valid"⟩ ∧
    validateInput numericMobileBody = ⟨true, none⟩ :=
  ⟨(mobile_non_string_passes numericMobileBody 1234567 (by decide) (by decide)
      (by decide) (by decide) rfl (by decide) (by decide) (by decide)).2.2,
   by decide⟩

/-- C2: on a valid body, with the environment bindings present and the email
content building through, a 2xx answer from the outbound call yields the 200
success envelope and a non-2xx answer or a thrown error yields the generic
500 failure envelope. -/
theorem valid_submission_outcomes (body : JsonValue) (env : Env) (s : Nat)
    (hv : (validateInput body).isValid = true)
    (henv : (env.MAILTRAP_API_TOKEN == "" || env.FROM_EMAIL == "" ||
      env.TO_EMAIL == "") = false)
    (hb : buildThrows body = false) :
    (respOk s = true →
      handleRequest ⟨"POST", "/contact", some body⟩ env (.resp s) = successResponse) ∧
    (respOk s = false →
      handleRequest ⟨"POST", "/contact", some body⟩ env (.resp s) =
        createErrorResponse "Unable to send your inquiry. Please try again later." 500) ∧
    (handleRequest ⟨"POST", "/contact", some body⟩ env .throwErr =
      createErrorResponse "Unable to send your inquiry. Please try again later." 500) := by
  refine ⟨?_, ?_, ?_⟩
  · intro hok
    simp [handleRequest, sendEmail, hv, henv, hb, hok]
  · intro hbad
    simp [handleRequest, sendEmail, hv, henv, hb, hbad]
  · simp [handleRequest, sendEmail, hv, henv, hb]

/-- Witness for C2 at the minimal valid body: upstream 200 gives the success
envelope, upstream 503 and a thrown error give the generic 500 envelope. -/
theorem valid_submission_outcomes_witness :
    handleRequest ⟨"POST", "/contact", some validBody⟩ sampleEnv (.resp 200) =
      successResponse ∧
    handleRequest ⟨"POST", "/contact", some validBody⟩ sampleEnv (.resp 503) =
      createErrorResponse "Unable to send your inquiry. Please try again later." 500 ∧
    handleRequest ⟨"POST", "/contact", some validBody⟩ sampleEnv .throwErr =
      createErrorResponse "Unable to send your inquiry. Please try again later." 500 :=
  ⟨(valid_submission_outcomes validBody sampleEnv 200 (by decide) (by decide)
      (by decide)).1 (by decide),
   (valid_submission_outcomes validBody sampleEnv 503 (by decide) (by decide)
      (by decide)).2.1 (by decide),
   (valid_submission_outcomes validBody sampleEnv 0 (by decide) (by decide)
      (by decide)).2.2⟩

/-- C3 counterexample: a `POST /contact` whose body does not parse as JSON is
answered with the generic 500 envelope, not with a 400 validation message:
`request.json()` throws inside the `try`, and the top-level `catch` maps the
error to 500. -/
theorem unparseable_body_counterexample :
    (handleRequest unparseableReq sampleEnv (.resp 200)).status = 500 ∧
    (handleRequest unparseableReq sampleEnv (.resp 200)).status ≠ 400 ∧
    (handleRequest unparseableReq sampleEnv (.resp 200)).body =
      some (envelopeBody "error" "Unable to send your inquiry. Please try again later.") :=
  ⟨rfl, by decide, rfl⟩

/-- C3 as amended: a `POST /contact` whose body does not parse as JSON is
answered 500 with the generic failure envelope, whatever the environment and
the outbound transport would have done. -/
theorem unparseable_body_maps_to_500 (env : Env) (f : FetchOutcome) :
    handleRequest ⟨"POST", "/contact", none⟩ env f =
      createErrorResponse "Unable to send your inquiry. Please try again later." 500 :=
  rfl

/-- C8: an `OPTIONS` request to any path is answered 200 with the CORS headers
and a null body; a request that is neither `POST` nor `OPTIONS` is answered
405 with the method envelope; a `POST` to a path other than `/contact` is
answered 404 with the endpoint envelope. -/
theorem routing_rules (req : RequestModel) (env : Env) (f : FetchOutcome) :
    (req.method = "OPTIONS" →
      handleRequest req env f = ⟨200, getCORSHeaders, none⟩) ∧
    (req.method ≠ "OPTIONS" → req.method ≠ "POST" →
      handleRequest req env f =
        ⟨405, ("Content-Type", "application/json") :: getCORSHeaders,
         some (envelopeBody "error" "Method not allowed")⟩) ∧
    (req.method = "POST" → req.path ≠ "/contact" →
      handleRequest req env f =
        ⟨404, ("Content-Type", "application/json") :: getCORSHeaders,
         some (envelopeBody "error" "Endpoint not found")⟩) := by
  refine ⟨?_, ?_, ?_⟩
  · intro h
    simp [handleRequest, h, handleCORS]
  · intro h1 h2
    simp [handleRequest, h1, h2, createErrorResponse]
  · intro h1 h2
    have : req.method ≠ "OPTIONS" := by
      rw [h1]
      decide
    simp [handleRequest, this, h1, h2, createErrorResponse]

/-- Witness for C8 at three concrete requests: a preflight, a GET, and a POST
to a wrong path. -/
theorem routing_rules_witness :
    handleRequest ⟨"OPTIONS", "/anything", none⟩ sampleEnv (.resp 200) =
      ⟨200, getCORSHeaders, none⟩ ∧
    handleRequest ⟨"GET", "/contact", none⟩ sampleEnv (.resp 200) =
      ⟨405, ("Content-Type", "application/json") :: getCORSHeaders,
       some (envelopeBody "error" "Method not allowed")⟩ ∧
    handleRequest ⟨"POST", "/other", some validBody⟩ sampleEnv (.resp 200) =
      ⟨404, ("Content-Type", "application/json") :: getCORSHeaders,
       some (envelopeBody "error" "Endpoint not found")⟩ :=
  ⟨(routing_rules ⟨"OPTIONS", "/anything", none⟩ sampleEnv (.resp 200)).1 rfl,
   (routing_rules ⟨"GET", "/contact", none⟩ sampleEnv (.resp 200)).2.1
      (by decide) (by decide),
   (routing_rules ⟨"POST", "/other", some validBody⟩ sampleEnv (.resp 200)).2.2
      rfl (by decide)⟩

/-- C9: every response of the handler carries the four fixed CORS headers, and
every response with a body (that is, every response except the null-body
preflight answer, which only an `OPTIONS` request receives) also carries
`Content-Type: application/json`. -/
theorem cors_headers_on_every_response (req : RequestModel) (env : Env) (f : FetchOutcome) :
    (∀ h ∈ getCORSHeaders, h ∈ (handleRequest req env f).headers) ∧
    ((handleRequest req env f).body ≠ none →
      ("Content-Type", "application/json") ∈ (handleRequest req env f).headers) ∧
    ((handleRequest req env f).body = none → req.method = "OPTIONS") := by
  obtain ⟨method, path, body⟩ := req
  cases h1 : (method == "OPTIONS") with
  | true =>
    have hm : method = "OPTIONS" := by simpa using h1
    simp [handleRequest, h1, handleCORS, hm]
  | false =>
    cases h2 : (method == "POST") with
    | false => simp [handleRequest, h1, h2, createErrorResponse, getCORSHeaders]
    | true =>
      cases h3 : (path == "/contact") with
      | false => simp [handleRequest, h1, h2, h3, createErrorResponse, getCORSHeaders]
      | true =>
        cases body with
        | none => simp [handleRequest, h1, h2, h3, createErrorResponse, getCORSHeaders]
        | some b =>
          cases h4 : (validateInput b).isValid with
          | false =>
            simp [handleRequest, h1, h2, h3, h4, createErrorResponse, getCORSHeaders]
          | true =>
            cases h5 : sendEmail b env f with
            | false =>
              simp [handleRequest, h1, h2, h3, h4, h5, createErrorResponse, getCORSHeaders]
            | true =>
              simp [handleRequest, h1, h2, h3, h4, h5, successResponse, getCORSHeaders]

/-- Witness for C9: a routing-error response carries an arbitrary CORS header
and the content type. -/
theorem cors_headers_on_every_response_witness :
    ("Access-Control-Allow-Origin", "*") ∈
      (handleRequest ⟨"GET", "/", none⟩ sampleEnv .throwErr).headers ∧
    ("Content-Type", "application/json") ∈
      (handleRequest ⟨"GET", "/", none⟩ sampleEnv .throwErr).headers :=
  ⟨(cors_headers_on_every_response ⟨"GET", "/", none⟩ sampleEnv .throwErr).1
      ("Access-Control-Allow-Origin", "*") (by decide),
   (cors_headers_on_every_response ⟨"GET", "/", none⟩ sampleEnv .throwErr).2.1
      (by decide)⟩

/-- No character produced by escaping one character is a raw left angle,
right angle, double quote or apostrophe. -/
theorem escapeHtmlChar_no_special (a : Char) :
    ∀ c ∈ (escapeHtmlChar a).data, c ≠ '<' ∧ c ≠ '>' ∧ c ≠ '"' ∧ c ≠ aposChar := by
  unfold escapeHtmlChar
  split_ifs with h1 h2 h3 h4 h5
  · decide
  · decide
  · decide
  · decide
  · decide
  · intro c hc
    have hca : c = a := by
      rw [show (String.singleton a).data = [a] from rfl] at hc
      simpa using hc
    subst hca
    exact ⟨fun h => h2 (by simp [h]), fun h => h3 (by simp [h]),
      fun h => h4 (by simp [h]), fun h => h5 (by simp [h])⟩

/-- No character of an escaped string is a raw left angle, right angle,
double quote or apostrophe. -/
theorem escapeHtmlL_no_special (l : List Char) :
    ∀ c ∈ escapeHtmlL l, c ≠ '<' ∧ c ≠ '>' ∧ c ≠ '"' ∧ c ≠ aposChar := by
  induction l with
  | nil =>
    intro c hc
    exact absurd hc (by simp [escapeHtmlL])
  | cons a t ih =>
    intro c hc
    rw [show escapeHtmlL (a :: t) = (escapeHtmlChar a).data ++ escapeHtmlL t from rfl] at hc
    rcases List.mem_append.mp hc with h | h
    · exact escapeHtmlChar_no_special a c h
    · exact ih c h

/-- The escaped string is the concatenation of the per-character blocks. -/
theorem escapeHtmlL_flatten (l : List Char) :
    escapeHtmlL l = (l.map fun c => (escapeHtmlChar c).data).flatten := by
  induction l with
  | nil => rfl
  | cons a t ih => simp [escapeHtmlL, ih]

/-- Each per-character block is either one of the five full entities or the
character itself, in which case it is none of the five escaped characters. -/
theorem escapeHtmlChar_block (a : Char) :
    (escapeHtmlChar a).data = "&amp;".data ∨ (escapeHtmlChar a).data = "&lt;".data ∨
    (escapeHtmlChar a).data = "&gt;".data ∨ (escapeHtmlChar a).data = "&quot;".data ∨
    (escapeHtmlChar a).data = "&#039;".data ∨
    (∃ c, (escapeHtmlChar a).data = [c] ∧
      c ≠ '&' ∧ c ≠ '<' ∧ c ≠ '>' ∧ c ≠ '"' ∧ c ≠ aposChar) := by
  unfold escapeHtmlChar
  split_ifs with h1 h2 h3 h4 h5
  · exact Or.inl rfl
  · exact Or.inr (Or.inl rfl)
  · exact Or.inr (Or.inr (Or.inl rfl))
  · exact Or.inr (Or.inr (Or.inr (Or.inl rfl)))
  · exact Or.inr (Or.inr (Or.inr (Or.inr (Or.inl rfl))))
  · refine Or.inr (Or.inr (Or.inr (Or.inr (Or.inr ⟨a, rfl, ?_, ?_, ?_, ?_, ?_⟩))))
    · exact fun h => h1 (by simp [h])
    · exact fun h => h2 (by simp [h])
    · exact fun h => h3 (by simp [h])
    · exact fun h => h4 (by simp [h])
    · exact fun h => h5 (by simp [h])

/-- C4: the HTML variant of the email interpolates only escaped user text:
the rendered body is the fixed template around the escaped fields; a provided
nonempty mobile or subject is interpolated through `escapeHtml`; and the
escape leaves no raw angle bracket, double quote or apostrophe, while every
character of its output belongs to a block that is either a full entity or a
single unescaped-safe character. -/
theorem html_escaping_applied :
    (∀ d : ContactData,
      htmlContent d =
        htmlSeg0 ++ escapeHtml d.name ++ htmlSeg1 ++ escapeHtml d.email ++ htmlSeg2 ++
          escapeHtml d.email ++ htmlSeg3 ++ mobileRow d ++ htmlSeg4 ++ safeSubject d ++
          htmlSeg5 ++ replaceNewlines (escapeHtml d.message) ++ htmlSeg6) ∧
    (∀ d : ContactData, ∀ m, d.mobile = some m → m ≠ "" → safeMobile d = escapeHtml m) ∧
    (∀ d : ContactData, ∀ t, d.subject = some t → t ≠ "" → safeSubject d = escapeHtml t) ∧
    (∀ s : String, ∀ c ∈ (escapeHtml s).data,
      c ≠ '<' ∧ c ≠ '>' ∧ c ≠ '"' ∧ c ≠ aposChar) ∧
    (∀ s : String, ∃ bs : List (List Char), (escapeHtml s).data = bs.flatten ∧
      ∀ b ∈ bs,
        b = "&amp;".data ∨ b = "&lt;".data ∨ b = "&gt;".data ∨ b = "&quot;".data ∨
          b = "&#039;".data ∨
          (∃ c, b = [c] ∧ c ≠ '&' ∧ c ≠ '<' ∧ c ≠ '>' ∧ c ≠ '"' ∧ c ≠ aposChar)) := by
  refine ⟨fun d => rfl, ?_, ?_, ?_, ?_⟩
  · intro d m hm hne
    simp [safeMobile, hm, hne]
  · intro d t ht hne
    simp [safeSubject, ht, hne]
  · intro s c hc
    exact escapeHtmlL_no_special s.data c hc
  · intro s
    refine ⟨s.data.map fun c => (escapeHtmlChar c).data, ?_, ?_⟩
    · rw [show (escapeHtml s).data = escapeHtmlL s.data from rfl, escapeHtmlL_flatten]
    · intro b hb
      rcases List.mem_map.mp hb with ⟨c, hc, rfl⟩
      exact escapeHtmlChar_block c

/-- Witness for C4: in a concrete escaped string no raw left angle remains,
and the escape output is the expected entity form. -/
theorem html_escaping_applied_witness :
    ¬ ('<' ∈ (escapeHtml (String.mk ['a', '<', 'b'])).data) ∧
    escapeHtml (String.mk ['a', '<', 'b']) = "a&lt;b" :=
  ⟨fun h => (html_escaping_applied.2.2.2.1 (String.mk ['a', '<', 'b']) '<' h).1 rfl,
   by decide⟩

end ContactFormApi
